import Mathlib

/-!
Verification of the semantic memory retrieval subsystem of the Echoes app.

The retrieval core lives in three near-identical React Native screens:
the conversational assistant screen (grounding variant) and two copies of
the explicit search screen.  The relevant functions are `fetchMemories`
(embedding normalization), `cosineSimilarity` (similarity engine),
`performSemanticSearch` (ranker, one variant per screen),
`getRelevantMemories` / `performSearch` (entry points) and the context
assembly inside `generateTherapistResponse`.

Modelling conventions:
* JavaScript numbers are modelled as exact rationals `ℚ`; similarity
  scores, which the source computes with `Math.sqrt` and division, are
  real numbers `ℝ`.  In this idealisation every vector element is a
  finite numeric value, so the runtime `typeof`/`isNaN` guards of the
  source are satisfied by construction on numeric arrays.
* The dynamically typed value stored in a `memory.embedding` column is
  modelled by the inductive type `RawEmbedding` below.  `JSON.parse` of
  a string is abstracted by letting the string constructor carry its
  parse outcome: `str (some xs)` is a nonempty string parsing to an
  array of numbers `xs`, `str none` is any other nonempty string
  (parse failure or a non-array parse result); the empty string, which
  is falsy in JavaScript, is the separate constructor `strEmpty`.
* ISO timestamp strings (`created_at`) are modelled as rationals ordered
  chronologically.
-/

namespace Echoes

/-- Shape of a raw value read from the `embedding` column. -/
inductive RawEmbedding where
  /-- `null` or `undefined` (falsy). -/
  | nullv : RawEmbedding
  /-- a bare number (falsy exactly when it is `0`). -/
  | numv (q : ℚ) : RawEmbedding
  /-- a boolean (falsy exactly when `false`). -/
  | boolv (b : Bool) : RawEmbedding
  /-- the empty string (falsy). -/
  | strEmpty : RawEmbedding
  /-- a nonempty string, carrying its JSON parse outcome: `some xs` when
  it parses to an array of numbers `xs`, `none` otherwise. -/
  | str (parsed : Option (List ℚ)) : RawEmbedding
  /-- an object with a `values` field: `some xs` when that field is an
  array of numbers `xs`, `none` when it is absent or unusable. -/
  | record (values : Option (List ℚ)) : RawEmbedding
  /-- an array of numbers. -/
  | arr (xs : List ℚ) : RawEmbedding
  deriving DecidableEq

/-- JavaScript truthiness of a raw embedding value. -/
def RawEmbedding.truthy : RawEmbedding → Bool
  | .nullv => false
  | .numv q => q != 0
  | .boolv b => b
  | .strEmpty => false
  | .str _ => true
  | .record _ => true
  | .arr _ => true

/-- The `Memory` record of the screens (interface `Memory`). -/
structure Memory where
  id : String
  created_at : ℚ
  transcript : String
  summary : Option String
  title : Option String
  emotion : Option String
  duration : Option ℕ
  user_id : String
  embedding : RawEmbedding
  deriving DecidableEq

/-- Embedding normalization from `fetchMemories`: a truthy raw value is
replaced by a 768-element array (kept as-is at length 768, truncated by
`slice(0, 768)` above 768 for direct arrays, extracted from a parsed
string or a `values` field only at length exactly 768) or by `null`;
a falsy raw value is left untouched because of the `if (memory.embedding)`
guard. -/
def normalizeStoredEmbedding (e : RawEmbedding) : RawEmbedding :=
  if e.truthy then
    match e with
    | .arr xs =>
        if xs.length = 768 then .arr xs
        else if 768 < xs.length then .arr (xs.take 768)
        else .nullv
    | .str (some xs) => if xs.length = 768 then .arr xs else .nullv
    | .record (some xs) => if xs.length = 768 then .arr xs else .nullv
    | _ => .nullv
  else e

/-- The per-memory normalization step of `fetchMemories`. -/
def normalizeFetchedMemory (m : Memory) : Memory :=
  { m with embedding := normalizeStoredEmbedding m.embedding }

/-- True when the normalized embedding is a 768-array or `null`; the
shapes the fetch-and-normalize step is claimed to leave behind. -/
def isCanonicalOrNull : RawEmbedding → Bool
  | .nullv => true
  | .arr xs => xs.length == 768
  | _ => false

/-- Dot product of two numeric vectors, as accumulated by the loop in
`cosineSimilarity` (which only runs when both lengths agree, so the
`zipWith` model is exact there); `dotQ a a` is the `normA` accumulator. -/
def dotQ (a b : List ℚ) : ℚ :=
  (List.zipWith (fun x y => x * y) a b).sum

/-- Cosine similarity as implemented by `cosineSimilarity` in all three
screens: array/length/number guards return 0, a zero squared norm
returns 0, otherwise `dot / (sqrt normA * sqrt normB)`.  In the rational
model the array and numeric-element guards always pass. -/
noncomputable def cosineSimilarity (vecA vecB : List ℚ) : ℝ :=
  if vecA.length ≠ vecB.length then 0
  else
    if dotQ vecA vecA = 0 ∨ dotQ vecB vecB = 0 then 0
    else (dotQ vecA vecB : ℝ) / (Real.sqrt (dotQ vecA vecA : ℝ) * Real.sqrt (dotQ vecB vecB : ℝ))

/-- L2 norm of a vector, `Math.sqrt` of the sum of squares. -/
noncomputable def l2norm (a : List ℚ) : ℝ :=
  Real.sqrt (dotQ a a : ℝ)

/-- The result element paired with its score, as produced by the `map`
and final object-spread steps of `performSemanticSearch` (interfaces
`{memory, similarity}` and `MemoryWithSimilarity`). -/
structure MemoryWithSimilarity where
  memory : Memory
  similarity : ℝ

/-- Validity filter at the head of every `performSemanticSearch`:
the embedding must be truthy, an array, of length exactly 768, with
every element a number (automatic for numeric arrays in this model). -/
def hasValidEmbedding (m : Memory) : Bool :=
  match m.embedding with
  | .arr xs => xs.length == 768
  | _ => false

/-- Numeric vector held by a memory whose embedding is an array. -/
def Memory.embVec (m : Memory) : List ℚ :=
  match m.embedding with
  | .arr xs => xs
  | _ => []

/-- Insertion step of the stable JavaScript `sort((a, b) => b.similarity
- a.similarity)`: an element moves in front of exactly the earlier
elements whose score is strictly smaller. -/
noncomputable def insertScored (x : MemoryWithSimilarity) :
    List MemoryWithSimilarity → List MemoryWithSimilarity
  | [] => [x]
  | y :: ys =>
      if y.similarity ≤ x.similarity then x :: y :: ys
      else y :: insertScored x ys

/-- Stable descending-by-score sort, the model of the JavaScript
`Array.prototype.sort` call with comparator `b.similarity - a.similarity`
(stable per the ECMAScript specification). -/
noncomputable def sortBySimilarityDesc :
    List MemoryWithSimilarity → List MemoryWithSimilarity
  | [] => []
  | x :: xs => insertScored x (sortBySimilarityDesc xs)

/-- Ranking pipeline of `performSemanticSearch` in the conversational
screen, with the literal constants `slice(0, 5)` and `> 0.3` abstracted
as `topK` and `minSim` (this is the only parameterisation applied; the
step order — score, sort, slice, threshold-filter, spread — is exactly
that of the source).  The final object spread `{...result.memory,
similarity}` rebuilds each element field by field. -/
noncomputable def rankCandidates (topK : ℕ) (minSim : ℝ)
    (queryEmbedding : List ℚ) (memories : List Memory) :
    List MemoryWithSimilarity :=
  let valid := memories.filter hasValidEmbedding
  if valid.length = 0 then []
  else
    ((((valid.map (fun m =>
        MemoryWithSimilarity.mk m (cosineSimilarity queryEmbedding m.embVec)))
      |> sortBySimilarityDesc).take topK).filter
        (fun r => decide (minSim < r.similarity))).map
      (fun r => MemoryWithSimilarity.mk r.memory r.similarity)

/-- The `performSemanticSearch` of the conversational assistant screen:
top 5 after the stable descending sort, then only scores strictly above
0.3 are kept. -/
noncomputable def performSemanticSearchGrounding
    (queryEmbedding : List ℚ) (memories : List Memory) :
    List MemoryWithSimilarity :=
  rankCandidates 5 (3 / 10) queryEmbedding memories

/-- The `performSemanticSearch` of the explicit search screens: top 20
after the stable descending sort, with no similarity threshold step. -/
noncomputable def performSemanticSearchExplicit
    (queryEmbedding : List ℚ) (memories : List Memory) :
    List MemoryWithSimilarity :=
  let valid := memories.filter hasValidEmbedding
  if valid.length = 0 then []
  else
    (((valid.map (fun m =>
        MemoryWithSimilarity.mk m (cosineSimilarity queryEmbedding m.embVec)))
      |> sortBySimilarityDesc).take 20).map
      (fun r => MemoryWithSimilarity.mk r.memory r.similarity)

/-- The pre-filter `memory.embedding && memory.embedding.length > 0`
used by both entry points before calling `performSemanticSearch`: the
value must be truthy and its `length` property a positive number (the
`length` of a non-array non-string is `undefined`, and any comparison
with `undefined` is false). -/
def hasSearchableEmbedding (m : Memory) : Bool :=
  match m.embedding with
  | .arr xs => decide (0 < xs.length)
  | .str _ => true
  | _ => false

/-- The conversational grounding entry point `getRelevantMemories`,
parameterised on the outcome of the `generateEmbedding` network call
(`none` models a provider failure, in which case the source returns the
empty list). -/
noncomputable def getRelevantMemories
    (embeddingResult : Option (List ℚ)) (memories : List Memory) :
    List MemoryWithSimilarity :=
  match embeddingResult with
  | none => []
  | some queryEmbedding =>
      let withEmb := memories.filter hasSearchableEmbedding
      if withEmb.length = 0 then []
      else performSemanticSearchGrounding queryEmbedding withEmb

/-- The distinct alert dialogs `performSearch` can raise (modelling the
`Alert.alert` calls on the explicit search screen). -/
inductive SearchAlert where
  | embeddingFailed : SearchAlert
  | noSearchableMemories : SearchAlert
  deriving DecidableEq

/-- One run of the explicit search `performSearch` (authenticated,
nonempty query), parameterised on the `generateEmbedding` outcome.
Returns the new `searchResults` state together with the alert raised,
if any: on provider failure the source alerts and returns early, so the
previous results are left untouched. -/
noncomputable def performSearchStep (embeddingResult : Option (List ℚ))
    (memories : List Memory) (prevResults : List MemoryWithSimilarity) :
    List MemoryWithSimilarity × Option SearchAlert :=
  match embeddingResult with
  | none => (prevResults, some SearchAlert.embeddingFailed)
  | some queryEmbedding =>
      let withEmb := memories.filter hasSearchableEmbedding
      if withEmb.length = 0 then (prevResults, some SearchAlert.noSearchableMemories)
      else (performSemanticSearchExplicit queryEmbedding withEmb, none)

/-- Chat roles of the conversational screen. -/
inductive ChatRole where
  | user : ChatRole
  | assistant : ChatRole
  deriving DecidableEq

/-- A chat message as held in `chatMessages` state. -/
structure ChatMessage where
  id : String
  role : ChatRole
  content : String
  timestamp : ℚ
  deriving DecidableEq

/-- Rendering of `new Date(t).toLocaleDateString()`; the exact date
format is immaterial to the claims, only that it is a function of the
timestamp. -/
def dateString (t : ℚ) : String := toString t

/-- `chatMessages.slice(-6)`: the last six messages, or all of them
when fewer than six exist. -/
def recentMessages (msgs : List ChatMessage) : List ChatMessage :=
  msgs.drop (msgs.length - 6)

/-- Role label used in the conversation history block. -/
def roleLabel : ChatRole → String
  | .user => "User"
  | .assistant => "You"

/-- The memory section of the composed context, built by the first
`forEach` of `generateTherapistResponse`: empty when there are no
ranked results, otherwise a header line followed by one dated
transcript (plus parenthesised summary when present) per result. -/
def buildMemoryContext (relevantMemories : List MemoryWithSimilarity) : String :=
  if relevantMemories.length > 0 then
    "Relevant past memories:\n" ++ String.join (relevantMemories.map (fun m =>
      dateString m.memory.created_at ++ ": " ++ m.memory.transcript ++ "\n" ++
      (match m.memory.summary with
       | some s => "(" ++ s ++ ")\n"
       | none => "") ++ "\n"))
  else ""

/-- The conversation history block built by the second `forEach` from
the already-sliced recent messages. -/
def buildConversationHistory (recent : List ChatMessage) : String :=
  if recent.length > 0 then
    "Recent conversation:\n" ++ String.join (recent.map (fun msg =>
      roleLabel msg.role ++ ": " ++ msg.content ++ "\n")) ++ "\n"
  else ""

/-- Fixed opening prose of the system prompt (abbreviated; the exact
instruction text carries no retrieval semantics). -/
def promptIntro : String :=
  "You are an experienced therapist having a natural conversation."

/-- Fixed closing prose of the system prompt (abbreviated). -/
def promptGuidelines : String :=
  "Be genuinely human in your responses and respond authentically."

/-- The composed system prompt of `generateTherapistResponse`: intro,
blank line, memory section immediately followed by the conversation
history over the last six messages, then the fixed guidelines. -/
def composeSystemPrompt (relevantMemories : List MemoryWithSimilarity)
    (chatMessages : List ChatMessage) : String :=
  promptIntro ++ "\n\n" ++ buildMemoryContext relevantMemories ++
    buildConversationHistory (recentMessages chatMessages) ++ "\n" ++
    promptGuidelines

/-- Query vector used by the concrete scenarios: the first standard
basis vector in dimension 768. -/
def exQuery : List ℚ := 1 :: List.replicate 767 0

/-- Candidate embedding with cosine similarity 9/10 to `exQuery`. -/
def vec09 : List ℚ := 9 :: 3 :: 3 :: 1 :: List.replicate 764 0

/-- Candidate embedding with cosine similarity 1/2 to `exQuery`. -/
def vec05 : List ℚ := 1 :: 1 :: 1 :: 1 :: List.replicate 764 0

/-- Candidate embedding with cosine similarity 1/5 to `exQuery`. -/
def vec02 : List ℚ := 1 :: 4 :: 2 :: 2 :: List.replicate 764 0

/-- Candidate embedding with cosine similarity 4/5 to `exQuery`. -/
def vec08 : List ℚ := 4 :: 3 :: 0 :: 0 :: List.replicate 764 0

/-- Candidate embedding with cosine similarity exactly 3/10 to
`exQuery`, sitting precisely on the conversational threshold. -/
def vec03 : List ℚ := 3 :: 9 :: 3 :: 1 :: List.replicate 764 0

/-- Candidate embedding with cosine similarity -1 to `exQuery`. -/
def vecNeg : List ℚ := (-1 : ℚ) :: List.replicate 767 0

/-- Template memory record for the concrete scenarios. -/
def baseMemory : Memory :=
  { id := "m", created_at := 0, transcript := "memory transcript",
    summary := none, title := none, emotion := none, duration := none,
    user_id := "user", embedding := RawEmbedding.nullv }

/-- Candidate scoring 9/10, most recent in the fetched (descending
`created_at`) order. -/
def mem09 : Memory :=
  { baseMemory with id := "m09", created_at := 4, embedding := RawEmbedding.arr vec09 }

/-- Candidate scoring 1/2. -/
def mem05 : Memory :=
  { baseMemory with id := "m05", created_at := 3, embedding := RawEmbedding.arr vec05 }

/-- Candidate scoring 1/5. -/
def mem02 : Memory :=
  { baseMemory with id := "m02", created_at := 2, embedding := RawEmbedding.arr vec02 }

/-- Candidate scoring 4/5, oldest in the fetched order. -/
def mem08 : Memory :=
  { baseMemory with id := "m08", created_at := 1, embedding := RawEmbedding.arr vec08 }

/-- Candidate scoring exactly 3/10. -/
def mem03 : Memory :=
  { baseMemory with id := "m03", created_at := 1, embedding := RawEmbedding.arr vec03 }

/-- Candidate scoring -1. -/
def memNeg : Memory :=
  { baseMemory with id := "mneg", created_at := 1, embedding := RawEmbedding.arr vecNeg }

/-- Older of two candidates with identical embeddings. -/
def memTieOld : Memory :=
  { baseMemory with id := "tie-old", created_at := 1, embedding := RawEmbedding.arr exQuery }

/-- Newer of two candidates with identical embeddings. -/
def memTieNew : Memory :=
  { baseMemory with id := "tie-new", created_at := 2, embedding := RawEmbedding.arr exQuery }

/-- Length rules 1-3 of spec section 4.1: keep at 768, truncate above
768, reject below 768. -/
def specLengthRules (xs : List ℚ) : RawEmbedding :=
  if xs.length = 768 then .arr xs
  else if 768 < xs.length then .arr (xs.take 768)
  else .nullv

/-- Normalizer as the claim (spec section 4.1) describes it: the three
length rules applied to direct arrays, to parsed textual arrays and to
a record `values` field alike (so truncation also applies to the parsed
and record cases); parse failure or any other shape is invalid.  Stated
only to compare against `normalizeStoredEmbedding`, the normalizer the
code implements. -/
def specNormalizeEmbedding : RawEmbedding → RawEmbedding
  | .arr xs => specLengthRules xs
  | .str (some xs) => specLengthRules xs
  | .record (some xs) => specLengthRules xs
  | _ => .nullv

theorem dotQ_nil (b : List ℚ) : dotQ [] b = 0 := rfl

theorem dotQ_cons (x y : ℚ) (a b : List ℚ) :
    dotQ (x :: a) (y :: b) = x * y + dotQ a b := by
  simp [dotQ]

theorem dotQ_comm (a b : List ℚ) : dotQ a b = dotQ b a := by
  induction a generalizing b with
  | nil => cases b <;> simp [dotQ]
  | cons x xs ih =>
    cases b with
    | nil => simp [dotQ]
    | cons y ys => simp [dotQ_cons, mul_comm, ih]

theorem dotQ_self_nonneg (a : List ℚ) : 0 ≤ dotQ a a := by
  induction a with
  | nil => simp [dotQ]
  | cons x xs ih =>
    rw [dotQ_cons]
    have hx : 0 ≤ x * x := mul_self_nonneg x
    linarith

theorem l2norm_eq_zero_iff (a : List ℚ) : l2norm a = 0 ↔ dotQ a a = 0 := by
  unfold l2norm
  rw [Real.sqrt_eq_zero (by exact_mod_cast dotQ_self_nonneg a)]
  exact_mod_cast Iff.rfl

theorem insertScored_perm (x : MemoryWithSimilarity)
    (l : List MemoryWithSimilarity) : List.Perm (insertScored x l) (x :: l) := by
  induction l with
  | nil => exact List.Perm.refl _
  | cons y ys ih =>
    unfold insertScored
    by_cases h : y.similarity ≤ x.similarity
    · rw [if_pos h]
    · rw [if_neg h]
      exact (ih.cons y).trans (List.Perm.swap x y ys)

theorem sortBySimilarityDesc_perm (l : List MemoryWithSimilarity) :
    List.Perm (sortBySimilarityDesc l) l := by
  induction l with
  | nil => exact List.Perm.refl _
  | cons x xs ih =>
    exact (insertScored_perm x (sortBySimilarityDesc xs)).trans (ih.cons x)

theorem mem_insertScored {z x : MemoryWithSimilarity}
    {l : List MemoryWithSimilarity} :
    z ∈ insertScored x l ↔ z = x ∨ z ∈ l := by
  rw [(insertScored_perm x l).mem_iff, List.mem_cons]

theorem insertScored_sorted {x : MemoryWithSimilarity}
    {l : List MemoryWithSimilarity}
    (hl : l.Pairwise (fun a b => b.similarity ≤ a.similarity)) :
    (insertScored x l).Pairwise (fun a b => b.similarity ≤ a.similarity) := by
  induction l with
  | nil => simp [insertScored]
  | cons y ys ih =>
    rcases List.pairwise_cons.mp hl with ⟨hy, hys⟩
    unfold insertScored
    by_cases h : y.similarity ≤ x.similarity
    · rw [if_pos h]
      refine List.pairwise_cons.mpr ⟨?_, hl⟩
      intro z hz
      rcases List.mem_cons.mp hz with rfl | hz
      · exact h
      · exact le_trans (hy z hz) h
    · rw [if_neg h]
      refine List.pairwise_cons.mpr ⟨?_, ih hys⟩
      intro z hz
      rcases mem_insertScored.mp hz with rfl | hz
      · exact le_of_lt (lt_of_not_le h)
      · exact hy z hz

theorem sortBySimilarityDesc_sorted (l : List MemoryWithSimilarity) :
    (sortBySimilarityDesc l).Pairwise (fun a b => b.similarity ≤ a.similarity) := by
  induction l with
  | nil => simp [sortBySimilarityDesc]
  | cons x xs ih => exact insertScored_sorted ih

/-- Stability of the insertion step: any pairwise relation that holds
vacuously between elements of distinct scores survives the insertion. -/
theorem insertScored_pairwise {Q : MemoryWithSimilarity → MemoryWithSimilarity → Prop}
    (hQ : ∀ a b, a.similarity ≠ b.similarity → Q a b)
    {x : MemoryWithSimilarity} {l : List MemoryWithSimilarity}
    (hl : l.Pairwise Q) (hx : ∀ y ∈ l, Q x y) :
    (insertScored x l).Pairwise Q := by
  induction l with
  | nil => simp [insertScored]
  | cons y ys ih =>
    rcases List.pairwise_cons.mp hl with ⟨hy, hys⟩
    unfold insertScored
    by_cases h : y.similarity ≤ x.similarity
    · rw [if_pos h]
      refine List.pairwise_cons.mpr ⟨?_, hl⟩
      intro z hz
      rcases List.mem_cons.mp hz with rfl | hz
      · exact hx _ (List.mem_cons_self _ _)
      · exact hx z (List.mem_cons_of_mem y hz)
    · rw [if_neg h]
      refine List.pairwise_cons.mpr ⟨?_, ih hys
        (fun z hz => hx z (List.mem_cons_of_mem y hz))⟩
      intro z hz
      rcases mem_insertScored.mp hz with rfl | hz
      · exact hQ y z (ne_of_gt (lt_of_not_le h))
      · exact hy z hz

/-- Stability of the sort: any pairwise relation that holds vacuously
between elements of distinct scores is preserved, so equal-score
elements keep their original relative order. -/
theorem sortBySimilarityDesc_pairwise
    {Q : MemoryWithSimilarity → MemoryWithSimilarity → Prop}
    (hQ : ∀ a b, a.similarity ≠ b.similarity → Q a b)
    {l : List MemoryWithSimilarity} (hl : l.Pairwise Q) :
    (sortBySimilarityDesc l).Pairwise Q := by
  induction l with
  | nil => simp [sortBySimilarityDesc]
  | cons x xs ih =>
    rcases List.pairwise_cons.mp hl with ⟨hx, hxs⟩
    exact insertScored_pairwise hQ (ih hxs)
      (fun y hy => hx y ((sortBySimilarityDesc_perm xs).mem_iff.mp hy))

theorem dotQ_replicate_zero_left (n : ℕ) (ys : List ℚ) :
    dotQ (List.replicate n 0) ys = 0 := by
  induction n generalizing ys with
  | zero => rfl
  | succ k ih =>
    cases ys with
    | nil => simp [dotQ]
    | cons y ys => rw [List.replicate_succ, dotQ_cons, ih]; ring

/-- Map-and-spread eta step: the final `map` of each
`performSemanticSearch` rebuilds every element field by field, which is
the identity in this model. -/
theorem map_mk_eta (l : List MemoryWithSimilarity) :
    l.map (fun r => MemoryWithSimilarity.mk r.memory r.similarity) = l := by
  rw [show (fun r : MemoryWithSimilarity =>
    MemoryWithSimilarity.mk r.memory r.similarity) = id from rfl, List.map_id]

/-- Square root of a rational cast, resolved through a real square. -/
theorem sqrt_cast_eq {q : ℚ} {r : ℝ} (h : (q : ℝ) = r ^ 2) (hr : 0 ≤ r) :
    Real.sqrt (q : ℝ) = r := by
  rw [h, Real.sqrt_sq hr]

/-- Closed-form evaluation of `cosineSimilarity` from the three loop
accumulators and the two square roots. -/
theorem cosineSimilarity_eval {a b : List ℚ} (hlen : a.length = b.length)
    {d p q : ℚ} (hd : dotQ a b = d) (hp : dotQ a a = p)
    (hq : dotQ b b = q) {s t : ℝ} (hs : Real.sqrt (p : ℝ) = s)
    (ht : Real.sqrt (q : ℝ) = t) (hp0 : p ≠ 0) (hq0 : q ≠ 0) :
    cosineSimilarity a b = (d : ℝ) / (s * t) := by
  unfold cosineSimilarity
  rw [if_neg (not_ne_iff.mpr hlen), hd, hp, hq,
    if_neg (by simp [hp0, hq0]), hs, ht]

theorem exQuery_length : exQuery.length = 768 := by
  simp only [exQuery, List.length_cons, List.length_replicate]

theorem vec09_length : vec09.length = 768 := by
  simp only [vec09, List.length_cons, List.length_replicate]

theorem vec05_length : vec05.length = 768 := by
  simp only [vec05, List.length_cons, List.length_replicate]

theorem vec02_length : vec02.length = 768 := by
  simp only [vec02, List.length_cons, List.length_replicate]

theorem vec08_length : vec08.length = 768 := by
  simp only [vec08, List.length_cons, List.length_replicate]

theorem vec03_length : vec03.length = 768 := by
  simp only [vec03, List.length_cons, List.length_replicate]

theorem vecNeg_length : vecNeg.length = 768 := by
  simp only [vecNeg, List.length_cons, List.length_replicate]

theorem dq_query_self : dotQ exQuery exQuery = 1 := by
  simp only [exQuery, dotQ_cons, dotQ_replicate_zero_left]
  norm_num

theorem dq_query_vec09 : dotQ exQuery vec09 = 9 := by
  simp only [exQuery, vec09, dotQ_cons, dotQ_replicate_zero_left]
  norm_num

theorem dq_vec09_self : dotQ vec09 vec09 = 100 := by
  simp only [vec09, dotQ_cons, dotQ_replicate_zero_left]
  norm_num

theorem dq_query_vec05 : dotQ exQuery vec05 = 1 := by
  simp only [exQuery, vec05, dotQ_cons, dotQ_replicate_zero_left]
  norm_num

theorem dq_vec05_self : dotQ vec05 vec05 = 4 := by
  simp only [vec05, dotQ_cons, dotQ_replicate_zero_left]
  norm_num

theorem dq_query_vec02 : dotQ exQuery vec02 = 1 := by
  simp only [exQuery, vec02, dotQ_cons, dotQ_replicate_zero_left]
  norm_num

theorem dq_vec02_self : dotQ vec02 vec02 = 25 := by
  simp only [vec02, dotQ_cons, dotQ_replicate_zero_left]
  norm_num

theorem dq_query_vec08 : dotQ exQuery vec08 = 4 := by
  simp only [exQuery, vec08, dotQ_cons, dotQ_replicate_zero_left]
  norm_num

theorem dq_vec08_self : dotQ vec08 vec08 = 25 := by
  simp only [vec08, dotQ_cons, dotQ_replicate_zero_left]
  norm_num

theorem dq_query_vec03 : dotQ exQuery vec03 = 3 := by
  simp only [exQuery, vec03, dotQ_cons, dotQ_replicate_zero_left]
  norm_num

theorem dq_vec03_self : dotQ vec03 vec03 = 100 := by
  simp only [vec03, dotQ_cons, dotQ_replicate_zero_left]
  norm_num

theorem dq_query_vecNeg : dotQ exQuery vecNeg = -1 := by
  simp only [exQuery, vecNeg, dotQ_cons, dotQ_replicate_zero_left]
  norm_num

theorem dq_vecNeg_self : dotQ vecNeg vecNeg = 1 := by
  simp only [vecNeg, dotQ_cons, dotQ_replicate_zero_left]
  norm_num

theorem cs_vec09 : cosineSimilarity exQuery vec09 = 9 / 10 := by
  rw [cosineSimilarity_eval (s := 1) (t := 10)
    (exQuery_length.trans vec09_length.symm)
    dq_query_vec09 dq_query_self dq_vec09_self
    (sqrt_cast_eq (by norm_num) (by norm_num))
    (sqrt_cast_eq (by norm_num) (by norm_num))
    (by norm_num) (by norm_num)]
  norm_num

theorem cs_vec05 : cosineSimilarity exQuery vec05 = 1 / 2 := by
  rw [cosineSimilarity_eval (s := 1) (t := 2)
    (exQuery_length.trans vec05_length.symm)
    dq_query_vec05 dq_query_self dq_vec05_self
    (sqrt_cast_eq (by norm_num) (by norm_num))
    (sqrt_cast_eq (by norm_num) (by norm_num))
    (by norm_num) (by norm_num)]
  norm_num

theorem cs_vec02 : cosineSimilarity exQuery vec02 = 1 / 5 := by
  rw [cosineSimilarity_eval (s := 1) (t := 5)
    (exQuery_length.trans vec02_length.symm)
    dq_query_vec02 dq_query_self dq_vec02_self
    (sqrt_cast_eq (by norm_num) (by norm_num))
    (sqrt_cast_eq (by norm_num) (by norm_num))
    (by norm_num) (by norm_num)]
  norm_num

theorem cs_vec08 : cosineSimilarity exQuery vec08 = 4 / 5 := by
  rw [cosineSimilarity_eval (s := 1) (t := 5)
    (exQuery_length.trans vec08_length.symm)
    dq_query_vec08 dq_query_self dq_vec08_self
    (sqrt_cast_eq (by norm_num) (by norm_num))
    (sqrt_cast_eq (by norm_num) (by norm_num))
    (by norm_num) (by norm_num)]
  norm_num

theorem cs_vec03 : cosineSimilarity exQuery vec03 = 3 / 10 := by
  rw [cosineSimilarity_eval (s := 1) (t := 10)
    (exQuery_length.trans vec03_length.symm)
    dq_query_vec03 dq_query_self dq_vec03_self
    (sqrt_cast_eq (by norm_num) (by norm_num))
    (sqrt_cast_eq (by norm_num) (by norm_num))
    (by norm_num) (by norm_num)]
  norm_num

theorem cs_vecNeg : cosineSimilarity exQuery vecNeg = -1 := by
  rw [cosineSimilarity_eval (s := 1) (t := 1)
    (exQuery_length.trans vecNeg_length.symm)
    dq_query_vecNeg dq_query_self dq_vecNeg_self
    (sqrt_cast_eq (by norm_num) (by norm_num))
    (sqrt_cast_eq (by norm_num) (by norm_num))
    (by norm_num) (by norm_num)]
  norm_num

theorem cs_self : cosineSimilarity exQuery exQuery = 1 := by
  rw [cosineSimilarity_eval (s := 1) (t := 1) rfl
    dq_query_self dq_query_self dq_query_self
    (sqrt_cast_eq (by norm_num) (by norm_num))
    (sqrt_cast_eq (by norm_num) (by norm_num))
    (by norm_num) (by norm_num)]
  norm_num

theorem embVec_mem09 : mem09.embVec = vec09 := rfl

theorem embVec_mem05 : mem05.embVec = vec05 := rfl

theorem embVec_mem02 : mem02.embVec = vec02 := rfl

theorem embVec_mem08 : mem08.embVec = vec08 := rfl

theorem embVec_mem03 : mem03.embVec = vec03 := rfl

theorem embVec_memNeg : memNeg.embVec = vecNeg := rfl

theorem embVec_memTieOld : memTieOld.embVec = exQuery := rfl

theorem embVec_memTieNew : memTieNew.embVec = exQuery := rfl

theorem valid_mem09 : hasValidEmbedding mem09 = true := by
  simp only [hasValidEmbedding, mem09, vec09_length]
  rfl

theorem valid_mem05 : hasValidEmbedding mem05 = true := by
  simp only [hasValidEmbedding, mem05, vec05_length]
  rfl

theorem valid_mem02 : hasValidEmbedding mem02 = true := by
  simp only [hasValidEmbedding, mem02, vec02_length]
  rfl

theorem valid_mem08 : hasValidEmbedding mem08 = true := by
  simp only [hasValidEmbedding, mem08, vec08_length]
  rfl

theorem valid_mem03 : hasValidEmbedding mem03 = true := by
  simp only [hasValidEmbedding, mem03, vec03_length]
  rfl

theorem valid_memNeg : hasValidEmbedding memNeg = true := by
  simp only [hasValidEmbedding, memNeg, vecNeg_length]
  rfl

theorem valid_memTieOld : hasValidEmbedding memTieOld = true := by
  simp only [hasValidEmbedding, memTieOld, exQuery_length]
  rfl

theorem valid_memTieNew : hasValidEmbedding memTieNew = true := by
  simp only [hasValidEmbedding, memTieNew, exQuery_length]
  rfl

/-- Scored list of the four-candidate scenario. -/
theorem scored_example :
    ([mem09, mem05, mem02, mem08].filter hasValidEmbedding).map
      (fun m => MemoryWithSimilarity.mk m (cosineSimilarity exQuery m.embVec)) =
      [MemoryWithSimilarity.mk mem09 (9 / 10), MemoryWithSimilarity.mk mem05 (1 / 2),
       MemoryWithSimilarity.mk mem02 (1 / 5), MemoryWithSimilarity.mk mem08 (4 / 5)] := by
  simp only [List.filter_cons, List.filter_nil, valid_mem09, valid_mem05, valid_mem02,
    valid_mem08, if_true, List.map_cons, List.map_nil, embVec_mem09, embVec_mem05,
    embVec_mem02, embVec_mem08, cs_vec09, cs_vec05, cs_vec02, cs_vec08]

/-- Stable sort of the four scored candidates. -/
theorem sorted_example :
    sortBySimilarityDesc
      [MemoryWithSimilarity.mk mem09 (9 / 10), MemoryWithSimilarity.mk mem05 (1 / 2),
       MemoryWithSimilarity.mk mem02 (1 / 5), MemoryWithSimilarity.mk mem08 (4 / 5)] =
      [MemoryWithSimilarity.mk mem09 (9 / 10), MemoryWithSimilarity.mk mem08 (4 / 5),
       MemoryWithSimilarity.mk mem05 (1 / 2), MemoryWithSimilarity.mk mem02 (1 / 5)] := by
  norm_num [sortBySimilarityDesc, insertScored]

/-- Evaluation of the parameterised ranking pipeline on the spec
scenario: similarities 9/10, 1/2, 1/5, 4/5 with threshold 3/10 and
`topK = 2`. -/
theorem rank_example :
    rankCandidates 2 (3 / 10) exQuery [mem09, mem05, mem02, mem08] =
      [MemoryWithSimilarity.mk mem09 (9 / 10), MemoryWithSimilarity.mk mem08 (4 / 5)] := by
  simp only [rankCandidates]
  rw [show [mem09, mem05, mem02, mem08].filter hasValidEmbedding =
      [mem09, mem05, mem02, mem08] by
    simp only [List.filter_cons, List.filter_nil, valid_mem09, valid_mem05, valid_mem02,
      valid_mem08, if_true]]
  rw [if_neg (by simp)]
  rw [show ([mem09, mem05, mem02, mem08].map (fun m =>
      MemoryWithSimilarity.mk m (cosineSimilarity exQuery m.embVec))) =
      [MemoryWithSimilarity.mk mem09 (9 / 10), MemoryWithSimilarity.mk mem05 (1 / 2),
       MemoryWithSimilarity.mk mem02 (1 / 5), MemoryWithSimilarity.mk mem08 (4 / 5)] by
    simp only [List.map_cons, List.map_nil, embVec_mem09, embVec_mem05,
      embVec_mem02, embVec_mem08, cs_vec09, cs_vec05, cs_vec02, cs_vec08]]
  rw [sorted_example]
  norm_num [List.take_succ_cons, List.take_zero, List.filter_cons, List.filter_nil,
    decide_eq_true_eq, map_mk_eta]

/-- The grounding ranker drops a candidate whose similarity is exactly
3/10: the strict `> 0.3` filter removes it. -/
theorem grounding_boundary_eval :
    performSemanticSearchGrounding exQuery [mem03] = [] := by
  simp only [performSemanticSearchGrounding, rankCandidates]
  rw [show [mem03].filter hasValidEmbedding = [mem03] by
    simp only [List.filter_cons, List.filter_nil, valid_mem03, if_true]]
  rw [if_neg (by simp)]
  rw [show ([mem03].map (fun m =>
      MemoryWithSimilarity.mk m (cosineSimilarity exQuery m.embVec))) =
      [MemoryWithSimilarity.mk mem03 (3 / 10)] by
    simp only [List.map_cons, List.map_nil, embVec_mem03, cs_vec03]]
  norm_num [sortBySimilarityDesc, insertScored, List.take_succ_cons, List.take_zero,
    List.filter_cons, List.filter_nil, decide_eq_true_eq, map_mk_eta]

/-- The grounding ranker keeps a candidate scoring 9/10. -/
theorem grounding_single_eval :
    performSemanticSearchGrounding exQuery [mem09] =
      [MemoryWithSimilarity.mk mem09 (9 / 10)] := by
  simp only [performSemanticSearchGrounding, rankCandidates]
  rw [show [mem09].filter hasValidEmbedding = [mem09] by
    simp only [List.filter_cons, List.filter_nil, valid_mem09, if_true]]
  rw [if_neg (by simp)]
  rw [show ([mem09].map (fun m =>
      MemoryWithSimilarity.mk m (cosineSimilarity exQuery m.embVec))) =
      [MemoryWithSimilarity.mk mem09 (9 / 10)] by
    simp only [List.map_cons, List.map_nil, embVec_mem09, cs_vec09]]
  norm_num [sortBySimilarityDesc, insertScored, List.take_succ_cons, List.take_zero,
    List.filter_cons, List.filter_nil, decide_eq_true_eq, map_mk_eta]

/-- The grounding ranker drops a candidate scoring 1/5 (below the
threshold). -/
theorem grounding_below_eval :
    performSemanticSearchGrounding exQuery [mem02] = [] := by
  simp only [performSemanticSearchGrounding, rankCandidates]
  rw [show [mem02].filter hasValidEmbedding = [mem02] by
    simp only [List.filter_cons, List.filter_nil, valid_mem02, if_true]]
  rw [if_neg (by simp)]
  rw [show ([mem02].map (fun m =>
      MemoryWithSimilarity.mk m (cosineSimilarity exQuery m.embVec))) =
      [MemoryWithSimilarity.mk mem02 (1 / 5)] by
    simp only [List.map_cons, List.map_nil, embVec_mem02, cs_vec02]]
  norm_num [sortBySimilarityDesc, insertScored, List.take_succ_cons, List.take_zero,
    List.filter_cons, List.filter_nil, decide_eq_true_eq, map_mk_eta]

/-- The explicit ranker keeps a candidate with similarity -1: no
threshold step exists in the explicit search screens. -/
theorem explicit_negative_eval :
    performSemanticSearchExplicit exQuery [memNeg] =
      [MemoryWithSimilarity.mk memNeg (-1)] := by
  simp only [performSemanticSearchExplicit]
  rw [show [memNeg].filter hasValidEmbedding = [memNeg] by
    simp only [List.filter_cons, List.filter_nil, valid_memNeg, if_true]]
  rw [if_neg (by simp)]
  rw [show ([memNeg].map (fun m =>
      MemoryWithSimilarity.mk m (cosineSimilarity exQuery m.embVec))) =
      [MemoryWithSimilarity.mk memNeg (-1)] by
    simp only [List.map_cons, List.map_nil, embVec_memNeg, cs_vecNeg]]
  norm_num [sortBySimilarityDesc, insertScored, List.take_succ_cons, List.take_zero,
    map_mk_eta]

/-- Two candidates with identical embeddings (equal scores 1) fed in
ascending `created_at` order come out in their input order: the stable
sort never consults `created_at`. -/
theorem grounding_tie_eval :
    performSemanticSearchGrounding exQuery [memTieOld, memTieNew] =
      [MemoryWithSimilarity.mk memTieOld 1, MemoryWithSimilarity.mk memTieNew 1] := by
  simp only [performSemanticSearchGrounding, rankCandidates]
  rw [show [memTieOld, memTieNew].filter hasValidEmbedding = [memTieOld, memTieNew] by
    simp only [List.filter_cons, List.filter_nil, valid_memTieOld, valid_memTieNew, if_true]]
  rw [if_neg (by simp)]
  rw [show ([memTieOld, memTieNew].map (fun m =>
      MemoryWithSimilarity.mk m (cosineSimilarity exQuery m.embVec))) =
      [MemoryWithSimilarity.mk memTieOld 1, MemoryWithSimilarity.mk memTieNew 1] by
    simp only [List.map_cons, List.map_nil, embVec_memTieOld, embVec_memTieNew, cs_self]]
  norm_num [sortBySimilarityDesc, insertScored, List.take_succ_cons, List.take_zero,
    List.filter_cons, List.filter_nil, decide_eq_true_eq, map_mk_eta]

/-- The ranking pipeline returns at most `topK` results. -/
theorem rankCandidates_length_le (k : ℕ) (t : ℝ) (q : List ℚ)
    (ms : List Memory) : (rankCandidates k t q ms).length ≤ k := by
  simp only [rankCandidates]
  split
  · simp
  · rw [List.length_map]
    exact le_trans (List.length_filter_le _ _) (List.length_take_le _ _)

/-- The ranking pipeline output is sorted by descending similarity. -/
theorem rankCandidates_sorted (k : ℕ) (t : ℝ) (q : List ℚ)
    (ms : List Memory) :
    (rankCandidates k t q ms).Pairwise (fun a b => b.similarity ≤ a.similarity) := by
  simp only [rankCandidates]
  split
  · simp
  · rw [map_mk_eta]
    exact List.Pairwise.sublist
      ((List.filter_sublist _).trans (List.take_sublist _ _))
      (sortBySimilarityDesc_sorted _)

/-- Every ranked result is strictly above the threshold and is the
scored image of some valid candidate. -/
theorem rankCandidates_mem (k : ℕ) (t : ℝ) (q : List ℚ) (ms : List Memory) :
    ∀ r ∈ rankCandidates k t q ms, t < r.similarity ∧
      ∃ m, m ∈ ms ∧ hasValidEmbedding m = true ∧
        r = MemoryWithSimilarity.mk m (cosineSimilarity q m.embVec) := by
  simp only [rankCandidates]
  split
  · simp
  · intro r hr
    rw [map_mk_eta] at hr
    have h1 := List.mem_filter.mp hr
    refine ⟨of_decide_eq_true h1.2, ?_⟩
    have h2 : r ∈ sortBySimilarityDesc _ := (List.take_sublist _ _).subset h1.1
    have h3 := (sortBySimilarityDesc_perm _).mem_iff.mp h2
    obtain ⟨m, hm, he⟩ := List.mem_map.mp h3
    have hmf := List.mem_filter.mp hm
    exact ⟨m, hmf.1, hmf.2, he.symm⟩

/-- Stability through the pipeline: when the candidate list is ordered
by descending `created_at`, equal-similarity results keep that order. -/
theorem rankCandidates_tiebreak (k : ℕ) (t : ℝ) (q : List ℚ)
    (ms : List Memory)
    (h : ms.Pairwise (fun a b => b.created_at ≤ a.created_at)) :
    (rankCandidates k t q ms).Pairwise (fun r u =>
      r.similarity = u.similarity →
        u.memory.created_at ≤ r.memory.created_at) := by
  simp only [rankCandidates]
  split
  · simp
  · rw [map_mk_eta]
    apply List.Pairwise.sublist
      ((List.filter_sublist _).trans (List.take_sublist _ _))
    apply sortBySimilarityDesc_pairwise (fun a b hne he => absurd he hne)
    rw [List.pairwise_map]
    exact (List.Pairwise.sublist (List.filter_sublist _) h).imp
      (fun hab => fun _ => hab)

/-- A valid embedding is an array of exactly 768 numbers. -/
theorem hasValidEmbedding_iff (m : Memory) :
    hasValidEmbedding m = true ↔
      ∃ xs, m.embedding = RawEmbedding.arr xs ∧ xs.length = 768 := by
  unfold hasValidEmbedding
  cases he : m.embedding <;> simp [he]

/-- When at most 20 candidates are valid, the explicit ranker returns a
scored entry for every valid candidate, whatever its score. -/
theorem explicit_retains_all (q : List ℚ) (ms : List Memory)
    (h : (ms.filter hasValidEmbedding).length ≤ 20) :
    ∀ m ∈ ms.filter hasValidEmbedding,
      MemoryWithSimilarity.mk m (cosineSimilarity q m.embVec) ∈
        performSemanticSearchExplicit q ms := by
  intro m hm
  simp only [performSemanticSearchExplicit]
  rw [if_neg (by
    have := List.length_pos.mpr (List.ne_nil_of_mem hm)
    omega)]
  rw [map_mk_eta, List.take_of_length_le
    (by rw [(sortBySimilarityDesc_perm _).length_eq, List.length_map]; exact h)]
  exact (sortBySimilarityDesc_perm _).mem_iff.mpr (List.mem_map_of_mem _ hm)

/-- The explicit ranker output is also sorted and bounded by 20. -/
theorem explicit_sorted_bounded (q : List ℚ) (ms : List Memory) :
    (performSemanticSearchExplicit q ms).length ≤ 20 ∧
      (performSemanticSearchExplicit q ms).Pairwise
        (fun a b => b.similarity ≤ a.similarity) := by
  simp only [performSemanticSearchExplicit]
  split
  · simp
  · rw [map_mk_eta]
    exact ⟨List.length_take_le _ _,
      List.Pairwise.sublist (List.take_sublist _ _) (sortBySimilarityDesc_sorted _)⟩

theorem searchable_mem02 : hasSearchableEmbedding mem02 = true := by
  simp only [hasSearchableEmbedding, mem02, vec02_length]
  rfl

/-- Provenance through the explicit ranker: every result is the scored
image of a valid candidate. -/
theorem explicit_mem (q : List ℚ) (ms : List Memory) :
    ∀ r ∈ performSemanticSearchExplicit q ms,
      ∃ m, m ∈ ms ∧ hasValidEmbedding m = true ∧
        r = MemoryWithSimilarity.mk m (cosineSimilarity q m.embVec) := by
  simp only [performSemanticSearchExplicit]
  split
  · simp
  · intro r hr
    rw [map_mk_eta] at hr
    have h2 : r ∈ sortBySimilarityDesc _ := (List.take_sublist _ _).subset hr
    have h3 := (sortBySimilarityDesc_perm _).mem_iff.mp h2
    obtain ⟨m, hm, he⟩ := List.mem_map.mp h3
    have hmf := List.mem_filter.mp hm
    exact ⟨m, hmf.1, hmf.2, he.symm⟩

/-- C1: for every query vector and candidate collection (and any
`topK`/`minSimilarity`), the ranker scores each candidate with
`cosineSimilarity`, drops every candidate scoring below the threshold,
returns a descending-by-score list of at most `topK` results; and on
the spec scenario — candidates of similarities 9/10, 1/2, 1/5, 4/5 with
`minSimilarity = 3/10` and `topK = 2` — the output is exactly the two
results scored 9/10 and 4/5, in that order. -/
theorem claim1_rank_contract :
    (∀ (k : ℕ) (t : ℝ) (q : List ℚ) (ms : List Memory),
      (rankCandidates k t q ms).length ≤ k ∧
      (rankCandidates k t q ms).Pairwise (fun a b => b.similarity ≤ a.similarity) ∧
      (∀ r ∈ rankCandidates k t q ms,
        ∃ m, m ∈ ms ∧ hasValidEmbedding m = true ∧
          r = MemoryWithSimilarity.mk m (cosineSimilarity q m.embVec)) ∧
      (∀ m ∈ ms, cosineSimilarity q m.embVec < t →
        ∀ r ∈ rankCandidates k t q ms, r.memory ≠ m)) ∧
    rankCandidates 2 (3 / 10) exQuery [mem09, mem05, mem02, mem08] =
      [MemoryWithSimilarity.mk mem09 (9 / 10),
       MemoryWithSimilarity.mk mem08 (4 / 5)] := by
  constructor
  · intro k t q ms
    refine ⟨rankCandidates_length_le k t q ms, rankCandidates_sorted k t q ms,
      fun r hr => ((rankCandidates_mem k t q ms) r hr).2, ?_⟩
    intro m hm hlt r hr heq
    obtain ⟨ht, m2, hm2, hv2, he⟩ := (rankCandidates_mem k t q ms) r hr
    have hm2m : m2 = m := by rw [he] at heq; exact heq
    have hgt : t < cosineSimilarity q m.embVec := by
      rw [← hm2m]
      rw [he] at ht
      exact ht
    exact lt_asymm hgt hlt
  · exact rank_example

/-- C1 witness: at the concrete scenario the output has at most two
results, and the candidate scoring 1/5 (below the 3/10 threshold) never
appears. -/
theorem claim1_rank_contract_witness :
    (rankCandidates 2 (3 / 10) exQuery [mem09, mem05, mem02, mem08]).length ≤ 2 ∧
    (∀ r ∈ rankCandidates 2 (3 / 10) exQuery [mem09, mem05, mem02, mem08],
      r.memory ≠ mem02) := by
  have h := claim1_rank_contract
  refine ⟨(h.1 2 (3 / 10) exQuery [mem09, mem05, mem02, mem08]).1, ?_⟩
  exact (h.1 2 (3 / 10) exQuery [mem09, mem05, mem02, mem08]).2.2.2 mem02
    (by simp) (by rw [embVec_mem02, cs_vec02]; norm_num)

/-- C2 counterexample: a candidate whose similarity to the query is
exactly 3/10 is dropped by the grounding ranker, because the filter is
the strict `similarity > 0.3`; the claim says it must be retained. -/
theorem claim2_boundary_cx :
    cosineSimilarity exQuery mem03.embVec = 3 / 10 ∧
    performSemanticSearchGrounding exQuery [mem03] = [] :=
  ⟨by rw [embVec_mem03]; exact cs_vec03, grounding_boundary_eval⟩

/-- C2 amended: every result of the conversational grounding ranker has
similarity strictly above 3/10; a candidate scoring exactly 3/10 is
excluded, not retained. -/
theorem claim2_strict_threshold :
    ∀ (q : List ℚ) (ms : List Memory) (r : MemoryWithSimilarity),
      r ∈ performSemanticSearchGrounding q ms → 3 / 10 < r.similarity := by
  intro q ms r hr
  exact ((rankCandidates_mem 5 (3 / 10) q ms) r hr).1

/-- C2 witness: a retained result scoring 9/10 is indeed above 3/10. -/
theorem claim2_strict_threshold_witness :
    MemoryWithSimilarity.mk mem09 (9 / 10) ∈
      performSemanticSearchGrounding exQuery [mem09] ∧
    (3 : ℝ) / 10 <
      (MemoryWithSimilarity.mk mem09 ((9 : ℝ) / 10)).similarity := by
  have hmem : MemoryWithSimilarity.mk mem09 ((9 : ℝ) / 10) ∈
      performSemanticSearchGrounding exQuery [mem09] := by
    rw [grounding_single_eval]
    exact List.mem_singleton_self _
  exact ⟨hmem, claim2_strict_threshold exQuery [mem09] _ hmem⟩

/-- C3 counterexample: the explicit-search ranker has no similarity
filter at all, so a candidate with similarity -1 (strictly below the
claimed default threshold 0) is returned, not dropped. -/
theorem claim3_negative_retained_cx :
    cosineSimilarity exQuery memNeg.embVec = -1 ∧
    performSemanticSearchExplicit exQuery [memNeg] =
      [MemoryWithSimilarity.mk memNeg (-1)] :=
  ⟨by rw [embVec_memNeg]; exact cs_vecNeg, explicit_negative_eval⟩

/-- C3 amended: the explicit-search ranker applies no similarity
threshold: whenever at most 20 candidates are valid, every valid
candidate — including one with negative similarity — appears in the
returned list with its score. -/
theorem claim3_explicit_no_threshold :
    ∀ (q : List ℚ) (ms : List Memory),
      (ms.filter hasValidEmbedding).length ≤ 20 →
      ∀ m ∈ ms.filter hasValidEmbedding,
        MemoryWithSimilarity.mk m (cosineSimilarity q m.embVec) ∈
          performSemanticSearchExplicit q ms := by
  intro q ms h
  exact explicit_retains_all q ms h

/-- C3 witness: the negative-similarity candidate is retained. -/
theorem claim3_explicit_no_threshold_witness :
    ([memNeg].filter hasValidEmbedding).length ≤ 20 ∧
    MemoryWithSimilarity.mk memNeg (cosineSimilarity exQuery memNeg.embVec) ∈
      performSemanticSearchExplicit exQuery [memNeg] := by
  have hlen : ([memNeg].filter hasValidEmbedding).length ≤ 20 := by
    simp [List.filter_cons, valid_memNeg]
  refine ⟨hlen, claim3_explicit_no_threshold exQuery [memNeg] hlen memNeg ?_⟩
  simp [List.filter_cons, valid_memNeg]

/-- C4 counterexample: a textual value parsing to a 900-element numeric
array is rejected by the code (which accepts parsed arrays only at
length exactly 768), while the claim says it is truncated to its first
768 elements. -/
theorem claim4_parsed_truncation_cx :
    specNormalizeEmbedding (RawEmbedding.str (some (List.replicate 900 (1 : ℚ)))) =
      RawEmbedding.arr (List.replicate 768 (1 : ℚ)) ∧
    normalizeStoredEmbedding (RawEmbedding.str (some (List.replicate 900 (1 : ℚ)))) =
      RawEmbedding.nullv := by
  constructor
  · simp only [specNormalizeEmbedding, specLengthRules, List.length_replicate,
      List.take_replicate]
    norm_num
  · simp only [normalizeStoredEmbedding, RawEmbedding.truthy, List.length_replicate,
      if_true]
    norm_num

/-- C4 amended: the normalizer keeps a numeric array of length exactly
768, truncates a longer array, rejects a shorter one; but a parsed
textual array and a record `values` field are accepted only at length
exactly 768 (longer ones are rejected, not truncated); parse failures
and truthy values of any other shape are invalid, while falsy stored
values pass through untouched. -/
theorem claim4_normalizer_behavior :
    ∀ xs : List ℚ,
      (xs.length = 768 →
        normalizeStoredEmbedding (RawEmbedding.arr xs) = RawEmbedding.arr xs) ∧
      (768 < xs.length →
        normalizeStoredEmbedding (RawEmbedding.arr xs) =
          RawEmbedding.arr (xs.take 768)) ∧
      (xs.length < 768 →
        normalizeStoredEmbedding (RawEmbedding.arr xs) = RawEmbedding.nullv) ∧
      (xs.length = 768 →
        normalizeStoredEmbedding (RawEmbedding.str (some xs)) = RawEmbedding.arr xs) ∧
      (xs.length ≠ 768 →
        normalizeStoredEmbedding (RawEmbedding.str (some xs)) = RawEmbedding.nullv) ∧
      (xs.length = 768 →
        normalizeStoredEmbedding (RawEmbedding.record (some xs)) = RawEmbedding.arr xs) ∧
      (xs.length ≠ 768 →
        normalizeStoredEmbedding (RawEmbedding.record (some xs)) = RawEmbedding.nullv) ∧
      normalizeStoredEmbedding (RawEmbedding.str none) = RawEmbedding.nullv ∧
      normalizeStoredEmbedding (RawEmbedding.record none) = RawEmbedding.nullv ∧
      (∀ q : ℚ, q ≠ 0 →
        normalizeStoredEmbedding (RawEmbedding.numv q) = RawEmbedding.nullv) ∧
      normalizeStoredEmbedding (RawEmbedding.boolv true) = RawEmbedding.nullv ∧
      normalizeStoredEmbedding RawEmbedding.strEmpty = RawEmbedding.strEmpty ∧
      normalizeStoredEmbedding RawEmbedding.nullv = RawEmbedding.nullv := by
  intro xs
  refine ⟨fun h => by simp [normalizeStoredEmbedding, RawEmbedding.truthy, h],
    fun h => by
      simp [normalizeStoredEmbedding, RawEmbedding.truthy, h, Nat.ne_of_gt h],
    fun h => by
      have h1 : xs.length ≠ 768 := Nat.ne_of_lt h
      have h2 : ¬ 768 < xs.length := by omega
      simp [normalizeStoredEmbedding, RawEmbedding.truthy, h1, h2],
    fun h => by simp [normalizeStoredEmbedding, RawEmbedding.truthy, h],
    fun h => by simp [normalizeStoredEmbedding, RawEmbedding.truthy, h],
    fun h => by simp [normalizeStoredEmbedding, RawEmbedding.truthy, h],
    fun h => by simp [normalizeStoredEmbedding, RawEmbedding.truthy, h],
    by simp [normalizeStoredEmbedding, RawEmbedding.truthy],
    by simp [normalizeStoredEmbedding, RawEmbedding.truthy],
    fun q hq => by simp [normalizeStoredEmbedding, RawEmbedding.truthy, hq],
    by simp [normalizeStoredEmbedding, RawEmbedding.truthy],
    by simp [normalizeStoredEmbedding, RawEmbedding.truthy],
    by simp [normalizeStoredEmbedding, RawEmbedding.truthy]⟩

/-- C4 witness: a direct 900-element array is truncated, while the same
array arriving as a parsed string is rejected. -/
theorem claim4_normalizer_behavior_witness :
    normalizeStoredEmbedding (RawEmbedding.arr (List.replicate 900 (1 : ℚ))) =
      RawEmbedding.arr ((List.replicate 900 (1 : ℚ)).take 768) ∧
    normalizeStoredEmbedding (RawEmbedding.str (some (List.replicate 900 (1 : ℚ)))) =
      RawEmbedding.nullv := by
  have h := claim4_normalizer_behavior (List.replicate 900 (1 : ℚ))
  exact ⟨h.2.1 (by rw [List.length_replicate]; norm_num),
    h.2.2.2.2.1 (by rw [List.length_replicate]; norm_num)⟩

/-- C5: the similarity engine returns 0 when the lengths differ or when
either L2 norm is zero, and otherwise returns the dot product divided
by the product of the two L2 norms; being a total function it never
raises, and in this numeric model the array/number preconditions of the
source always hold. -/
theorem claim5_similarity_contract :
    ∀ a b : List ℚ,
      (a.length ≠ b.length → cosineSimilarity a b = 0) ∧
      (l2norm a = 0 ∨ l2norm b = 0 → cosineSimilarity a b = 0) ∧
      (a.length = b.length → l2norm a ≠ 0 → l2norm b ≠ 0 →
        cosineSimilarity a b = (dotQ a b : ℝ) / (l2norm a * l2norm b)) := by
  intro a b
  refine ⟨fun h => by simp [cosineSimilarity, h], ?_, ?_⟩
  · intro h
    have h2 : dotQ a a = 0 ∨ dotQ b b = 0 := by
      rcases h with h | h
      · exact Or.inl ((l2norm_eq_zero_iff a).mp h)
      · exact Or.inr ((l2norm_eq_zero_iff b).mp h)
    unfold cosineSimilarity
    by_cases hl : a.length ≠ b.length
    · rw [if_pos hl]
    · rw [if_neg hl, if_pos h2]
  · intro hlen hna hnb
    have hp : dotQ a a ≠ 0 := fun hc => hna ((l2norm_eq_zero_iff a).mpr hc)
    have hq : dotQ b b ≠ 0 := fun hc => hnb ((l2norm_eq_zero_iff b).mpr hc)
    unfold cosineSimilarity l2norm
    rw [if_neg (not_ne_iff.mpr hlen), if_neg (by simp [hp, hq])]

/-- C5 witness: a length mismatch and a zero vector give 0, while a
well-formed pair follows the cosine formula. -/
theorem claim5_similarity_contract_witness :
    cosineSimilarity [(1 : ℚ)] [1, 2] = 0 ∧
    cosineSimilarity [(0 : ℚ)] [5] = 0 ∧
    cosineSimilarity [(1 : ℚ)] [2] =
      (dotQ [(1 : ℚ)] [2] : ℝ) / (l2norm [(1 : ℚ)] * l2norm [2]) := by
  have h1 := claim5_similarity_contract [(1 : ℚ)] [1, 2]
  have h2 := claim5_similarity_contract [(0 : ℚ)] [5]
  have h3 := claim5_similarity_contract [(1 : ℚ)] [2]
  refine ⟨h1.1 (by decide), h2.2.1 (Or.inl ?_), h3.2.2 rfl ?_ ?_⟩
  · rw [l2norm_eq_zero_iff]
    norm_num [dotQ]
  · rw [Ne, l2norm_eq_zero_iff]
    norm_num [dotQ]
  · rw [Ne, l2norm_eq_zero_iff]
    norm_num [dotQ]

/-- C6: similarity is symmetric in its two arguments. -/
theorem claim6_similarity_symm :
    ∀ a b : List ℚ, cosineSimilarity a b = cosineSimilarity b a := by
  intro a b
  have hd := dotQ_comm a b
  by_cases hl : a.length = b.length
  · by_cases hA : dotQ a a = 0 <;> by_cases hB : dotQ b b = 0 <;>
      simp [cosineSimilarity, hl, hA, hB, hd, mul_comm]
  · simp [cosineSimilarity, hl, Ne.symm hl]

/-- C7 counterexample: two equal-score candidates fed to the ranker in
ascending `created_at` order come out in that same order — the older
one first — because the sort is stable and never consults `created_at`;
the claim promises descending `created_at` for every candidate list. -/
theorem claim7_tie_order_cx :
    performSemanticSearchGrounding exQuery [memTieOld, memTieNew] =
      [MemoryWithSimilarity.mk memTieOld 1, MemoryWithSimilarity.mk memTieNew 1] ∧
    memTieOld.created_at < memTieNew.created_at :=
  ⟨grounding_tie_eval, by norm_num [memTieOld, memTieNew, baseMemory]⟩

/-- C7 amended: when the candidate list is already ordered by
descending `created_at` (as `fetchMemories` produces it), equal-score
results are ordered by descending `created_at` in the output, because
the sort is stable. -/
theorem claim7_tiebreak_sorted_input :
    ∀ (q : List ℚ) (ms : List Memory),
      ms.Pairwise (fun a b => b.created_at ≤ a.created_at) →
      (performSemanticSearchGrounding q ms).Pairwise (fun r u =>
        r.similarity = u.similarity →
          u.memory.created_at ≤ r.memory.created_at) := by
  intro q ms h
  exact rankCandidates_tiebreak 5 (3 / 10) q ms h

/-- C7 witness: the two tied candidates in descending fetch order. -/
theorem claim7_tiebreak_sorted_input_witness :
    [memTieNew, memTieOld].Pairwise
      (fun a b : Memory => b.created_at ≤ a.created_at) ∧
    (performSemanticSearchGrounding exQuery [memTieNew, memTieOld]).Pairwise
      (fun r u => r.similarity = u.similarity →
        u.memory.created_at ≤ r.memory.created_at) := by
  have hp : [memTieNew, memTieOld].Pairwise
      (fun a b : Memory => b.created_at ≤ a.created_at) := by
    norm_num [List.pairwise_cons, memTieNew, memTieOld, baseMemory]
  exact ⟨hp, claim7_tiebreak_sorted_input exQuery [memTieNew, memTieOld] hp⟩

/-- C8: with empty ranked results the composed context contains no
memory section at all — the memory block is the empty string, not an
empty placeholder — while the conversation window (the last six
messages, all of them when fewer) is still included. -/
theorem claim8_composer_empty_memories :
    ∀ msgs : List ChatMessage,
      buildMemoryContext [] = "" ∧
      composeSystemPrompt [] msgs =
        promptIntro ++ "\n\n" ++
          buildConversationHistory (recentMessages msgs) ++ "\n" ++
          promptGuidelines ∧
      (recentMessages msgs).length = min 6 msgs.length ∧
      List.IsSuffix (recentMessages msgs) msgs := by
  intro msgs
  refine ⟨rfl, ?_, ?_, List.drop_suffix _ _⟩
  · show promptIntro ++ "\n\n" ++ buildMemoryContext [] ++
      buildConversationHistory (recentMessages msgs) ++ "\n" ++
      promptGuidelines = _
    rw [show buildMemoryContext [] = "" from rfl, String.append_empty]
  · unfold recentMessages
    rw [List.length_drop]
    omega

/-- C9 counterexample: an embedding-provider failure makes the
conversational entry point return the empty list, the very same value
a successful ranking returns when nothing passes the threshold — the
two outcomes are indistinguishable, contrary to the claim. -/
theorem claim9_unavailable_cx :
    getRelevantMemories none [mem02] = [] ∧
    getRelevantMemories (some exQuery) [mem02] = [] := by
  constructor
  · rfl
  · simp only [getRelevantMemories]
    rw [show [mem02].filter hasSearchableEmbedding = [mem02] by
      simp only [List.filter_cons, List.filter_nil, searchable_mem02, if_true]]
    rw [if_neg (by simp)]
    exact grounding_below_eval

/-- C9 amended: on provider failure the conversational entry point
returns the empty list (indistinguishable from the no-match outcome of
a successful ranking), while the explicit search screen raises an error
alert and leaves the previous results untouched. -/
theorem claim9_failure_behavior :
    (∀ ms : List Memory, getRelevantMemories none ms = []) ∧
    (∀ q : List ℚ, getRelevantMemories (some q) [] = []) ∧
    (∀ (ms : List Memory) (prev : List MemoryWithSimilarity),
      performSearchStep none ms prev =
        (prev, some SearchAlert.embeddingFailed)) :=
  ⟨fun _ => rfl, fun _ => rfl, fun _ _ => rfl⟩

/-- C10 counterexample: the empty string is falsy, so it bypasses the
normalization branch entirely and survives the fetch step as a string —
neither a 768-element array nor null. -/
theorem claim10_falsy_survives_cx :
    normalizeStoredEmbedding RawEmbedding.strEmpty = RawEmbedding.strEmpty ∧
    isCanonicalOrNull
      (normalizeStoredEmbedding RawEmbedding.strEmpty) = false :=
  ⟨rfl, rfl⟩

/-- C10 amended: every truthy stored value normalizes to a 768-element
array or null (falsy values such as the empty string pass through
unchanged), and both rankers only ever return memories whose embedding
is an array of exactly 768 numbers. -/
theorem claim10_invariant :
    (∀ e : RawEmbedding, e.truthy = true →
      isCanonicalOrNull (normalizeStoredEmbedding e) = true) ∧
    (∀ (q : List ℚ) (ms : List Memory) (r : MemoryWithSimilarity),
      r ∈ performSemanticSearchGrounding q ms →
      ∃ xs, r.memory.embedding = RawEmbedding.arr xs ∧ xs.length = 768) ∧
    (∀ (q : List ℚ) (ms : List Memory) (r : MemoryWithSimilarity),
      r ∈ performSemanticSearchExplicit q ms →
      ∃ xs, r.memory.embedding = RawEmbedding.arr xs ∧ xs.length = 768) := by
  refine ⟨?_, ?_, ?_⟩
  · intro e he
    cases e with
    | nullv => simp [RawEmbedding.truthy] at he
    | numv q =>
        have hq : q ≠ 0 := by simpa [RawEmbedding.truthy] using he
        simp [normalizeStoredEmbedding, RawEmbedding.truthy, hq, isCanonicalOrNull]
    | boolv b =>
        have hb : b = true := by simpa [RawEmbedding.truthy] using he
        subst hb
        simp [normalizeStoredEmbedding, RawEmbedding.truthy, isCanonicalOrNull]
    | strEmpty => simp [RawEmbedding.truthy] at he
    | str p =>
        cases p with
        | none => simp [normalizeStoredEmbedding, RawEmbedding.truthy, isCanonicalOrNull]
        | some xs =>
            by_cases h : xs.length = 768 <;>
              simp [normalizeStoredEmbedding, RawEmbedding.truthy,
                isCanonicalOrNull, h]
    | record p =>
        cases p with
        | none => simp [normalizeStoredEmbedding, RawEmbedding.truthy, isCanonicalOrNull]
        | some xs =>
            by_cases h : xs.length = 768 <;>
              simp [normalizeStoredEmbedding, RawEmbedding.truthy,
                isCanonicalOrNull, h]
    | arr xs =>
        by_cases h : xs.length = 768
        · simp [normalizeStoredEmbedding, RawEmbedding.truthy, isCanonicalOrNull, h]
        · by_cases h2 : 768 < xs.length
          · simp [normalizeStoredEmbedding, RawEmbedding.truthy, isCanonicalOrNull,
              h, h2, List.length_take, Nat.min_eq_left h2.le]
          · have h3 : xs.length < 768 := by omega
            simp [normalizeStoredEmbedding, RawEmbedding.truthy, isCanonicalOrNull,
              h, h2]
  · intro q ms r hr
    obtain ⟨_, m, _, hv, he⟩ := (rankCandidates_mem 5 (3 / 10) q ms) r hr
    obtain ⟨xs, hxs, hlen⟩ := (hasValidEmbedding_iff m).mp hv
    rw [he]
    exact ⟨xs, hxs, hlen⟩
  · intro q ms r hr
    obtain ⟨m, _, hv, he⟩ := (explicit_mem q ms) r hr
    obtain ⟨xs, hxs, hlen⟩ := (hasValidEmbedding_iff m).mp hv
    rw [he]
    exact ⟨xs, hxs, hlen⟩

/-- C10 witness: an oversized truthy array normalizes to canonical
form, and a returned search result indeed carries a 768-array. -/
theorem claim10_invariant_witness :
    (RawEmbedding.arr (List.replicate 900 (1 : ℚ))).truthy = true ∧
    isCanonicalOrNull
      (normalizeStoredEmbedding (RawEmbedding.arr (List.replicate 900 (1 : ℚ)))) =
      true ∧
    (∃ xs, (MemoryWithSimilarity.mk memNeg (-1)).memory.embedding =
      RawEmbedding.arr xs ∧ xs.length = 768) := by
  refine ⟨rfl, claim10_invariant.1 _ rfl, ?_⟩
  refine claim10_invariant.2.2 exQuery [memNeg] _ ?_
  rw [explicit_negative_eval]
  exact List.mem_singleton_self _

end Echoes
